import Mathlib

/-!
Verification of the model-invocation and audio-playback core of the
HIT137_Group09_Assignment3 repository (src/model_runner.py), against its
natural-language specification.

The embedding follows the source file closely:
* `NDArray` models a NumPy array by its shape and flat data (float samples
  are modelled as rationals);
* `PyVal` models the Python values that can occur in the pipeline result;
* `run_text_to_speech` models `ModelRunner.run_text_to_speech`
  (src/model_runner.py lines 17-39) as a function from the external
  text-to-audio capability, the input text and the fresh temporary-file
  name to an outcome plus an ordered list of side effects;
* `run_image_captioning` models `ModelRunner.run_image_captioning`
  (lines 11-15);
* `applyEffect` / `runEffects` interpret the side effects on a file system
  so that write-then-read round trips and "no file written" can be stated;
* `dispatchPlayback` models line 39's subprocess call in enough detail to
  settle the playback-dispatch claims.
-/

/-- A NumPy ndarray, modelled by its shape (the list of axis sizes) and its
flat row-major sample data. Float samples are modelled as rationals; the
scipy float WAV round trip is exact on sample values, so no rounding is
modelled. -/
structure NDArray where
  shape : List Nat
  data : List Rat
deriving DecidableEq

/-- numpy squeeze: removes every axis of size 1 from the shape; the flat data
is unchanged. -/
def NDArray.squeeze (a : NDArray) : NDArray :=
  { shape := a.shape.filter (fun d => d != 1), data := a.data }

/-- numpy ndim: the number of axes of the array. -/
def NDArray.ndim (a : NDArray) : Nat :=
  a.shape.length

/-- A Python value, covering the cases relevant to the data flowing through
`run_text_to_speech`: a NumPy ndarray, a plain (possibly nested) Python list,
an integer, or a string. -/
inductive PyVal where
  | ndarray (a : NDArray)
  | pylist1 (xs : List Rat)
  | pylist2 (rows : List (List Rat))
  | int (n : Nat)
  | str (s : String)
deriving DecidableEq

/-- True exactly when the value is a NumPy ndarray: the model of Python's
isinstance(audio_array, np.ndarray) test on line 30. -/
def PyVal.isNdarray : PyVal → Bool
  | .ndarray _ => true
  | _ => false

/-- The value returned by the text-to-audio pipeline call on line 20: either a
Python dictionary (an association list of string keys, matching the
isinstance(result, dict) test on line 23) or some non-dictionary value. -/
inductive PipeOutput where
  | dict (entries : List (String × PyVal))
  | nonDict (descr : String)
deriving DecidableEq

/-- Lines 30-31 of src/model_runner.py: if the audio value is a NumPy ndarray
with exactly two dimensions, it is squeezed; every other value is passed
through unchanged. -/
def normalizeAudio : PyVal → PyVal
  | .ndarray a => if a.ndim = 2 then .ndarray a.squeeze else .ndarray a
  | v => v

/-- A side effect performed by `run_text_to_speech`, in the order it occurs:
creation of the temporary file (line 34), the WAV write (line 36) — recorded
as `wavWrite` when scipy accepts the data and writes the file, and as
`wavWriteFail` (the call made, with its arguments, which then raises before
writing any content) when it does not — and the subprocess launch (line 39).
`deleteFile` is in the vocabulary so that the absence of any deletion is
expressible; the source never emits it. -/
inductive Effect where
  | createTempFile (path : String)
  | wavWrite (path : String) (rate : PyVal) (data : PyVal)
  | wavWriteFail (path : String) (rate : PyVal) (data : PyVal)
  | subprocessRun (cmd : List String) (shell : Bool)
  | deleteFile (path : String)
deriving DecidableEq

/-- True exactly for the subprocess-launch effect (the playback dispatch). -/
def Effect.isDispatch : Effect → Bool
  | .subprocessRun _ _ => true
  | _ => false

/-- True for the effects that create or write a file. -/
def Effect.writesFile : Effect → Bool
  | .createTempFile _ => true
  | .wavWrite _ _ _ => true
  | _ => false

/-- Outcome of a call to `run_text_to_speech`: normal completion; the
TypeError raised on line 27 when the pipeline result fails validation; or an
exception raised by the WAV write on line 36 (scipy raises AttributeError on
data without a dtype, IndexError computing shape[1] on a zero-dimensional
array, and a header-packing error on a non-integer rate), which propagates
out of the method. -/
inductive TTSOutcome where
  | ok
  | typeError
  | writeError
deriving DecidableEq

/-- Acceptance condition of scipy.io.wavfile.write (line 36): the call
succeeds exactly when the data is a NumPy ndarray with at least one axis and
the rate is an integer. On any other input it raises before writing any
content — AttributeError reading the dtype of non-array data, IndexError
reading shape[1] of a zero-dimensional array, an error packing the header
with a non-integer rate — and the exception propagates out of
run_text_to_speech, so the subprocess launch on line 39 never runs. -/
def wavWriteOk : PyVal → PyVal → Bool
  | .ndarray a, .int _ => a.ndim != 0
  | _, _ => false

/-- ModelRunner.run_text_to_speech, src/model_runner.py lines 17-39.
`pipe` is the external text-to-audio capability (lines 18-20), applied to the
input text; `tmpPath` is the fresh name chosen by the temporary-file facility
on line 34. Line 23 validates that the result is a dict containing both an
"audio" and a "sampling_rate" key, else line 27 raises with an empty effect
trace (the raise precedes all file and subprocess activity); lines 30-31
squeeze a two-dimensional ndarray; line 34 creates the temporary file (with
delete set to False, so no deletion effect is ever emitted); line 36 calls
the WAV writer — when scipy accepts the data (`wavWriteOk`) the file is
written and line 39 launches the subprocess with the shell flag set,
otherwise the write raises, the exception propagates, and the launch never
runs. -/
def run_text_to_speech (pipe : String → PipeOutput) (text : String)
    (tmpPath : String) : TTSOutcome × List Effect :=
  match pipe text with
  | .nonDict _ => (.typeError, [])
  | .dict entries =>
    match entries.lookup "audio", entries.lookup "sampling_rate" with
    | some audioArray, some sampleRate =>
      if wavWriteOk (normalizeAudio audioArray) sampleRate then
        (.ok,
          [ .createTempFile tmpPath,
            .wavWrite tmpPath sampleRate (normalizeAudio audioArray),
            .subprocessRun ["start", "", tmpPath] true ])
      else
        (.writeError,
          [ .createTempFile tmpPath,
            .wavWriteFail tmpPath sampleRate (normalizeAudio audioArray) ])
    | _, _ => (.typeError, [])

/-- Content of a file on disk: empty (just created) or a written WAV payload
(rate and data as passed to the WAV writer). -/
inductive FileContent where
  | empty
  | wav (rate : PyVal) (data : PyVal)
deriving DecidableEq

/-- A file system: an association list from paths to contents. -/
abbrev FileSystem := List (String × FileContent)

/-- Interpretation of one effect on the file system: temp-file creation adds
an empty file, the successful WAV write replaces the content at its path, a
failed write call leaves the file system unchanged (scipy reopens the
already-empty temporary file for writing and raises before writing any
content), deletion removes the path, and the subprocess launch does not
touch the file system. -/
def applyEffect (fs : FileSystem) : Effect → FileSystem
  | .createTempFile p => (p, .empty) :: fs
  | .wavWrite p r d => (p, .wav r d) :: fs.filter (fun e => e.1 != p)
  | .wavWriteFail _ _ _ => fs
  | .deleteFile p => fs.filter (fun e => e.1 != p)
  | .subprocessRun _ _ => fs

/-- Interpretation of a list of effects, in order. -/
def runEffects (fs : FileSystem) (es : List Effect) : FileSystem :=
  es.foldl applyEffect fs

/-- scipy WAV read: returns the (rate, data) pair stored at the path, if the
path holds a written WAV file. The scipy float WAV write/read round trip is
exact on sample values, so the stored values are returned unchanged. -/
def wavRead (fs : FileSystem) (p : String) : Option (PyVal × PyVal) :=
  match fs.lookup p with
  | some (.wav r d) => some (r, d)
  | _ => none

/-- One record of the image-to-text capability result list; only the
generated-text field is read by the source. -/
structure CaptionRecord where
  generated_text : String
deriving DecidableEq

/-- ModelRunner.run_image_captioning, src/model_runner.py lines 11-15.
`cap` is the external image-to-text capability applied to the image opened
from the path (lines 12-14); line 15 returns the generated-text field of the
first record of the result list. An empty result list makes the indexing on
line 15 fail, modelled as none. -/
def run_image_captioning (cap : String → List CaptionRecord)
    (image_path : String) : Option String :=
  match cap image_path with
  | r :: _ => some r.generated_text
  | [] => none

/-- The ModelRunner class, src/model_runner.py line 10: it declares no fields
and neither method assigns an instance attribute, so an instance carries no
mutable state. -/
structure ModelRunner
deriving DecidableEq

/-- run_image_captioning as a method call on a ModelRunner instance: the
caption together with the instance after the call, making the absence of
state mutation explicit in the type. -/
def ModelRunner.generate_caption (self : ModelRunner)
    (cap : String → List CaptionRecord) (path : String) :
    Option String × ModelRunner :=
  (run_image_captioning cap path, self)

/-- Modelled from the spec (section 4.1 result contract): the returned
structure is a dictionary containing both an audio-waveform entry and a
sampling-rate entry. Used as the specification side of the validation
claim, to be compared with the source-derived `run_text_to_speech`. -/
def specValidResult : PipeOutput → Bool
  | .dict entries =>
      (entries.lookup "audio").isSome && (entries.lookup "sampling_rate").isSome
  | .nonDict _ => false

/-- A Bark-style pipeline result that passes the line-23 validation: a
dictionary with an "audio" entry and a "sampling_rate" entry. -/
def ttsDict (audioVal rateVal : PyVal) : PipeOutput :=
  .dict [("audio", audioVal), ("sampling_rate", rateVal)]

/-- Helper: on a validated pipeline result, run_text_to_speech reduces to
the write-acceptance test on the normalized waveform — success yields the
full trace ending in the playback dispatch; a rejected write yields the
created-but-unwritten temporary file, the failing write call, and no
dispatch. -/
theorem run_tts_valid (audioVal rateVal : PyVal) (text tmpPath : String) :
    run_text_to_speech (fun _ => ttsDict audioVal rateVal) text tmpPath
      = if wavWriteOk (normalizeAudio audioVal) rateVal then
          (.ok,
            [ .createTempFile tmpPath,
              .wavWrite tmpPath rateVal (normalizeAudio audioVal),
              .subprocessRun ["start", "", tmpPath] true ])
        else
          (.writeError,
            [ .createTempFile tmpPath,
              .wavWriteFail tmpPath rateVal (normalizeAudio audioVal) ]) := rfl

/-- Claim C2: run_text_to_speech raises the format error exactly when the
pipeline result is not a dictionary containing both an audio-waveform entry
and a sampling-rate entry; and when it raises, it performs no side effect at
all — no temporary file is created or written and no playback is
dispatched (the effect trace is empty). -/
theorem C2_validation (r : PipeOutput) (text tmpPath : String) :
    ((run_text_to_speech (fun _ => r) text tmpPath).1 = .typeError
      ↔ specValidResult r = false)
    ∧ ((run_text_to_speech (fun _ => r) text tmpPath).1 = .typeError →
        (run_text_to_speech (fun _ => r) text tmpPath).2 = []) := by
  cases r with
  | nonDict d => simp [run_text_to_speech, specValidResult]
  | dict entries =>
    cases h1 : entries.lookup "audio" <;>
      cases h2 : entries.lookup "sampling_rate" <;>
        simp [run_text_to_speech, specValidResult, h1, h2]
    split <;> simp_all

/-- Witness for C2 at a concrete invalid result: a dictionary missing the
sampling-rate key makes run_text_to_speech raise, with an empty effect
trace. -/
theorem C2_validation_witness :
    (run_text_to_speech (fun _ => .dict [("audio", .pylist1 [])]) "hi"
      "/tmp/a.wav").1 = .typeError
    ∧ (run_text_to_speech (fun _ => .dict [("audio", .pylist1 [])]) "hi"
        "/tmp/a.wav").2 = [] := by
  have h := C2_validation (.dict [("audio", .pylist1 [])]) "hi" "/tmp/a.wav"
  have h1 : (run_text_to_speech (fun _ => .dict [("audio", .pylist1 [])]) "hi"
      "/tmp/a.wav").1 = .typeError := h.1.mpr (by decide)
  exact ⟨h1, h.2 h1⟩

/-- Claim C4 counterexample: the waveform of shape (1, 1) — the instance
N = 1 of shape (1, N) — is squeezed to the zero-dimensional shape (), not to
shape (1,): numpy squeeze removes every unit axis, not only the leading
one. -/
theorem C4_counterexample :
    normalizeAudio (.ndarray ⟨[1, 1], [0]⟩) = .ndarray ⟨[], [0]⟩
    ∧ normalizeAudio (.ndarray ⟨[1, 1], [0]⟩) ≠ .ndarray ⟨[1], [0]⟩ := by
  exact ⟨rfl, by decide⟩

/-- Claim C4 (amended): for every waveform of shape (1, N) with N ≠ 1, the
normalization step squeezes it to shape (N,) with the data unchanged, and a
waveform that is already one-dimensional is passed through unchanged. (The
original claim fails at N = 1, where the squeeze yields the zero-dimensional
shape.) -/
theorem C4_amended :
    (∀ (N : Nat) (data : List Rat), N ≠ 1 →
        normalizeAudio (.ndarray ⟨[1, N], data⟩) = .ndarray ⟨[N], data⟩)
    ∧ (∀ a : NDArray, a.ndim = 1 → normalizeAudio (.ndarray a) = .ndarray a) := by
  constructor
  · intro N data hN
    have h1 : ((1 : Nat) != 1) = false := by decide
    have h2 : (N != 1) = true := by simpa using hN
    simp [normalizeAudio, NDArray.ndim, NDArray.squeeze, List.filter_cons, h1, h2]
  · intro a ha
    simp [normalizeAudio, ha]

/-- Witness for C4 (amended) at N = 3 and at an already-1-D array. -/
theorem C4_amended_witness :
    normalizeAudio (.ndarray ⟨[1, 3], [0, 0, 0]⟩) = .ndarray ⟨[3], [0, 0, 0]⟩
    ∧ normalizeAudio (.ndarray ⟨[3], [0, 0, 0]⟩) = .ndarray ⟨[3], [0, 0, 0]⟩ :=
  ⟨C4_amended.1 3 [0, 0, 0] (by decide), C4_amended.2 ⟨[3], [0, 0, 0]⟩ rfl⟩

/-- Claim C9: shape normalization applies only to NumPy ndarrays — any
non-ndarray audio value (for example a plain nested Python list) bypasses
the squeeze entirely, and the WAV write call on line 36 receives it exactly
as the pipeline returned it (the call is recorded in the trace with its
verbatim arguments; scipy then raises on such a value, so the run ends in a
write error and no playback is dispatched). -/
theorem C9_non_ndarray_passthrough (v sr : PyVal) (text tmpPath : String)
    (hv : v.isNdarray = false) :
    normalizeAudio v = v
    ∧ (run_text_to_speech (fun _ => ttsDict v sr) text tmpPath).2 =
      [ .createTempFile tmpPath,
        .wavWriteFail tmpPath sr v ]
    ∧ (run_text_to_speech (fun _ => ttsDict v sr) text tmpPath).1
      = .writeError := by
  have hnorm : normalizeAudio v = v := by
    cases v <;> simp_all [PyVal.isNdarray, normalizeAudio]
  have hfail : wavWriteOk v sr = false := by
    cases v <;> simp_all [PyVal.isNdarray, wavWriteOk]
  have hnot : ¬ wavWriteOk (normalizeAudio v) sr = true := by
    rw [hnorm, hfail]; simp
  refine ⟨hnorm, ?_, ?_⟩
  · rw [run_tts_valid, if_neg hnot, hnorm]
  · rw [run_tts_valid, if_neg hnot]

/-- Witness for C9 at a concrete two-dimensional plain Python list. -/
theorem C9_witness :
    normalizeAudio (.pylist2 [[0, 1], [2, 3]]) = .pylist2 [[0, 1], [2, 3]]
    ∧ (run_text_to_speech
        (fun _ => ttsDict (.pylist2 [[0, 1], [2, 3]]) (.int 24000)) "hi"
        "/tmp/b.wav").2 =
      [ .createTempFile "/tmp/b.wav",
        .wavWriteFail "/tmp/b.wav" (.int 24000) (.pylist2 [[0, 1], [2, 3]]) ]
    ∧ (run_text_to_speech
        (fun _ => ttsDict (.pylist2 [[0, 1], [2, 3]]) (.int 24000)) "hi"
        "/tmp/b.wav").1 = .writeError :=
  C9_non_ndarray_passthrough (.pylist2 [[0, 1], [2, 3]]) (.int 24000) "hi"
    "/tmp/b.wav" rfl

/-- Claim C10: a two-dimensional waveform of shape (1, 1) is squeezed to a
zero-dimensional array — every unit axis is removed — so the value handed to
the WAV encoder on line 36 is not one-dimensional: the trace records the
write call on the zero-dimensional array (which scipy rejects, so the run
ends in a write error). -/
theorem C10_squeeze_unit_axes (data : List Rat) (text tmpPath : String) :
    normalizeAudio (.ndarray ⟨[1, 1], data⟩) = .ndarray ⟨[], data⟩
    ∧ NDArray.ndim ⟨[], data⟩ ≠ 1
    ∧ (run_text_to_speech
        (fun _ => ttsDict (.ndarray ⟨[1, 1], data⟩) (.int 24000)) text
        tmpPath).2 =
      [ .createTempFile tmpPath,
        .wavWriteFail tmpPath (.int 24000) (.ndarray ⟨[], data⟩) ]
    ∧ (run_text_to_speech
        (fun _ => ttsDict (.ndarray ⟨[1, 1], data⟩) (.int 24000)) text
        tmpPath).1 = .writeError := by
  exact ⟨rfl, by simp [NDArray.ndim], rfl, rfl⟩

/-- Claim C3: with the external capability returning rate 24000 and the
(1, 3)-shaped waveform [0.1, -0.1, 0.0] for the text "hello world",
run_text_to_speech completes normally, the written temporary WAV file reads
back with sample rate 24000 and the same 3 samples (the float WAV round trip
is exact on sample values, hence "approximately equal" in the source), and
exactly one OS open call is dispatched, on that file's path. -/
theorem C3_round_trip :
    (run_text_to_speech
      (fun _ => ttsDict (.ndarray ⟨[1, 3], [1/10, -1/10, 0]⟩) (.int 24000))
      "hello world" "/tmp/speech.wav").1 = .ok
    ∧ wavRead
        (runEffects []
          (run_text_to_speech
            (fun _ => ttsDict (.ndarray ⟨[1, 3], [1/10, -1/10, 0]⟩)
              (.int 24000)) "hello world" "/tmp/speech.wav").2)
        "/tmp/speech.wav"
      = some (.int 24000, .ndarray ⟨[3], [1/10, -1/10, 0]⟩)
    ∧ ((run_text_to_speech
        (fun _ => ttsDict (.ndarray ⟨[1, 3], [1/10, -1/10, 0]⟩) (.int 24000))
        "hello world" "/tmp/speech.wav").2.filter Effect.isDispatch)
      = [.subprocessRun ["start", "", "/tmp/speech.wav"] true] := by
  exact ⟨rfl, rfl, rfl⟩

/-- Claim C6: whenever the external capability's result list has a first
record whose generated-text field is non-empty, run_image_captioning returns
exactly that text, verbatim; the returned string is non-empty; and no other
record influences the result — any tail after the first record yields the
same caption. -/
theorem C6_caption_verbatim (cap : String → List CaptionRecord)
    (path : String) (r : CaptionRecord) (rest : List CaptionRecord)
    (hcap : cap path = r :: rest) (hne : r.generated_text ≠ "") :
    run_image_captioning cap path = some r.generated_text
    ∧ run_image_captioning cap path ≠ some ""
    ∧ ∀ rest2 : List CaptionRecord,
        run_image_captioning (fun _ => r :: rest2) path
          = some r.generated_text := by
  have h1 : run_image_captioning cap path = some r.generated_text := by
    simp [run_image_captioning, hcap]
  refine ⟨h1, ?_, fun rest2 => rfl⟩
  rw [h1]
  simpa using hne

/-- Witness for C6 at a concrete mocked capability with two records. -/
theorem C6_caption_verbatim_witness :
    run_image_captioning (fun _ => [⟨"a cat"⟩, ⟨"other"⟩]) "img.png"
      = some "a cat"
    ∧ run_image_captioning (fun _ => [⟨"a cat"⟩, ⟨"other"⟩]) "img.png"
      ≠ some "" :=
  ⟨(C6_caption_verbatim (fun _ => [⟨"a cat"⟩, ⟨"other"⟩]) "img.png" ⟨"a cat"⟩
      [⟨"other"⟩] rfl (by decide)).1,
   (C6_caption_verbatim (fun _ => [⟨"a cat"⟩, ⟨"other"⟩]) "img.png" ⟨"a cat"⟩
      [⟨"other"⟩] rfl (by decide)).2.1⟩

/-- Claim C8: generate_caption is deterministic with respect to the
program's own state: a call returns the ModelRunner instance unchanged (the
class declares no fields and the method assigns none), a second successive
call with the same capability and path returns the same caption, and a
failed call — one whose capability yields an empty result list, so the
caption lookup fails — leaves no state that alters a subsequent independent
request. -/
theorem C8_deterministic (self : ModelRunner)
    (cap : String → List CaptionRecord) (path : String) :
    (self.generate_caption cap path).2 = self
    ∧ ((self.generate_caption cap path).2.generate_caption cap path).1
      = (self.generate_caption cap path).1
    ∧ ∀ failCap : String → List CaptionRecord,
        (self.generate_caption failCap path).1 = none →
        ((self.generate_caption failCap path).2.generate_caption cap path).1
          = (self.generate_caption cap path).1 := by
  exact ⟨rfl, rfl, fun _ _ => rfl⟩

/-- Witness for C8 with a failing capability (empty result list) followed by
a succeeding one. -/
theorem C8_deterministic_witness :
    ((ModelRunner.mk).generate_caption (fun _ => []) "img.png").1 = none
    ∧ (((ModelRunner.mk).generate_caption (fun _ => []) "img.png").2.generate_caption
        (fun _ => [⟨"a dog"⟩]) "img.png").1
      = ((ModelRunner.mk).generate_caption (fun _ => [⟨"a dog"⟩]) "img.png").1 :=
  ⟨rfl,
   (C8_deterministic ModelRunner.mk (fun _ => [⟨"a dog"⟩]) "img.png").2.2
     (fun _ => []) rfl⟩
